import Mathlib

/-!
Shallow embedding of the `gh-trs` core (files `src/config.rs` and `src/trs.rs`):
the workflow-configuration data model, file-target resolution, the default
testing scaffold, the TRS tool-version builder and the service-info
generator/merger.  Rust `Result<T, anyhow::Error>` becomes `Except GhError T`;
a Rust panic (process abort, e.g. `Vec` indexing out of bounds) is modelled as
the distinguished `GhError.panicked` outcome so that it stays observably
different from an error returned through `Result`.  The wall-clock instant
consumed by `ServiceInfo::new` (`Utc::now()`) is passed as an explicit
`DateTime` argument.  `PathBuf` values are plain strings; `Uuid` is its
canonical string form.
-/

namespace GhTrs

/-- Error outcomes of the embedded core.  `invalidUrl` embeds
`anyhow!("Invalid URL: {}", url)`, `noLanguageType` embeds
`anyhow!("No language type")`, `urlParse` embeds a propagated
`url::ParseError`, and `panicked` marks a Rust panic (an abort, not a
returned `Result` error). -/
inductive GhError where
  | invalidUrl (url : String)
  | noLanguageType
  | urlParse (input : String)
  | panicked (msg : String)
deriving DecidableEq, Repr

/-- Decidable equality of `Except` results, so that concrete runs of the
embedded operations can be settled by `decide`. -/
instance {ε α : Type} [DecidableEq ε] [DecidableEq α] : DecidableEq (Except ε α)
  | .ok a, .ok b =>
    if h : a = b then .isTrue (by rw [h])
    else .isFalse (by intro hh; cases hh; exact h rfl)
  | .ok _, .error _ => .isFalse (by intro h; cases h)
  | .error _, .ok _ => .isFalse (by intro h; cases h)
  | .error e, .error f =>
    if h : e = f then .isTrue (by rw [h])
    else .isFalse (by intro hh; cases hh; exact h rfl)

/-- A parsed URL as the `url` crate exposes it to this crate: a scheme, a
host, and `path_segments()` — `none` models a cannot-be-a-base URL, `some`
the list of `/`-separated path segments. -/
structure Url where
  scheme : String
  host : String
  pathSegments : Option (List String)
deriving DecidableEq, Repr

/-- Strips a leading `https://` from a character list (all URLs this crate
builds at the modelled call sites use the `https` scheme). -/
def dropScheme : List Char → Option (List Char)
  | 'h' :: 't' :: 't' :: 'p' :: 's' :: ':' :: '/' :: '/' :: rest => some rest
  | _ => none

/-- Forbidden host code points of the WHATWG URL standard (which the `url`
crate implements): a host containing one of these fails to parse. -/
def isForbiddenHostChar (c : Char) : Bool :=
  c == ' ' || c == '#' || c == '/' || c == ':' || c == '<' || c == '>' ||
  c == '?' || c == '@' || c == '[' || c == '\\' || c == ']' || c == '^' ||
  c == '|' || c.toNat < 32 || c.toNat == 127

/-- Splits a character list at `/` into path segments, as Rust
`str::split('/')` does: `splitSegs "a/b" = ["a", "b"]`, `splitSegs "" = [""]`. -/
def splitSegs : List Char → List String
  | [] => [""]
  | c :: rest =>
    match splitSegs rest with
    | [] => [""]
    | s :: ss => if c == '/' then "" :: s :: ss else String.mk (c :: s.data) :: ss

/-- Model of `url::Url::parse` (external `url` crate), restricted to the
absolute `https` URLs this crate constructs: the scheme must be `https://`,
the host runs to the first `/`, must be non-empty and contain no forbidden
host code point; the remainder is split into path segments (an absent path
normalizes to the single empty segment, as in the WHATWG standard). -/
def Url.parse (s : String) : Except GhError Url :=
  match dropScheme s.data with
  | none => .error (GhError.urlParse s)
  | some rest =>
    let hostChars := rest.takeWhile (fun c => c != '/')
    let pathChars := rest.drop hostChars.length
    if hostChars.isEmpty then .error (GhError.urlParse s)
    else if hostChars.any isForbiddenHostChar then .error (GhError.urlParse s)
    else
      .ok { scheme := "https",
            host := String.mk hostChars,
            pathSegments :=
              some (match pathChars with
                    | [] => [""]
                    | _ :: cs => splitSegs cs) }

/-- Joins path segments with `/`. -/
def joinSegs : List String → String
  | [] => ""
  | [s] => s
  | s :: rest => s ++ "/" ++ joinSegs rest

/-- Renders a `Url` back to a string, for the `url.as_ref()` interpolation in
the `Invalid URL: {}` error message. -/
def Url.render (u : Url) : String :=
  match u.pathSegments with
  | none => u.scheme ++ "://" ++ u.host
  | some segs => u.scheme ++ "://" ++ u.host ++ "/" ++ joinSegs segs

/-- Embeds `config::LanguageType` (src/config.rs). -/
inductive LanguageType where
  | Cwl
  | Wdl
  | Nfl
  | Smk
deriving DecidableEq, Repr, Fintype

/-- Embeds `config::FileType` (src/config.rs). -/
inductive FileType where
  | Primary
  | Secondary
deriving DecidableEq, Repr

/-- Embeds `config::File` (src/config.rs); `target: PathBuf` is a string. -/
structure File where
  url : Url
  target : String
  type : FileType
deriving DecidableEq, Repr

/-- Embeds `config::File::new` (src/config.rs lines 48-64): an explicit target is
used verbatim; otherwise the target is the last path segment of the URL,
with `anyhow!("Invalid URL: {}")` when `path_segments()` is `None` or the
segment iterator is empty. -/
def File.new (url : Url) (target : Option String) (ftype : FileType) :
    Except GhError File :=
  match target with
  | some t => .ok { url := url, target := t, type := ftype }
  | none =>
    match url.pathSegments with
    | none => .error (GhError.invalidUrl url.render)
    | some segs =>
      match segs.getLast? with
      | none => .error (GhError.invalidUrl url.render)
      | some s => .ok { url := url, target := s, type := ftype }

/-- Embeds `config::TestFileType` (src/config.rs). -/
inductive TestFileType where
  | WfParams
  | WfEngineParams
  | Other
deriving DecidableEq, Repr

/-- Embeds `config::TestFile` (src/config.rs). -/
structure TestFile where
  url : Url
  target : String
  type : TestFileType
deriving DecidableEq, Repr

/-- Embeds `config::TestFile::new` (src/config.rs lines 116-132): identical target
resolution to `File::new`. -/
def TestFile.new (url : Url) (target : Option String) (ftype : TestFileType) :
    Except GhError TestFile :=
  match target with
  | some t => .ok { url := url, target := t, type := ftype }
  | none =>
    match url.pathSegments with
    | none => .error (GhError.invalidUrl url.render)
    | some segs =>
      match segs.getLast? with
      | none => .error (GhError.invalidUrl url.render)
      | some s => .ok { url := url, target := s, type := ftype }

/-- Embeds `config::Testing` (src/config.rs). -/
structure Testing where
  id : String
  files : List TestFile
deriving DecidableEq, Repr

/-- Rust `.unwrap()`: takes the `ok` value; the fallback stands in for the
panic, and every use below is proved to take the `ok` branch. -/
def unwrapOr {α : Type} (e : Except GhError α) (d : α) : α :=
  match e with
  | .ok a => a
  | .error _ => d

/-- Fallback `Url` for `unwrapOr`. -/
def Url.fallback : Url := { scheme := "", host := "", pathSegments := none }

/-- Fallback `TestFile` for `unwrapOr`. -/
def TestFile.fallback : TestFile :=
  { url := Url.fallback, target := "", type := TestFileType.Other }

/-- Embeds `impl Default for Testing` (src/config.rs lines 80-106): id `test_1` and
three `TestFile` entries built from fixed example URLs with no explicit
target. -/
def Testing.default : Testing :=
  { id := "test_1",
    files :=
      [ unwrapOr
          (TestFile.new
            (unwrapOr (Url.parse "https://example.com/path/to/wf_params.json") Url.fallback)
            none TestFileType.WfParams)
          TestFile.fallback,
        unwrapOr
          (TestFile.new
            (unwrapOr (Url.parse "https://example.com/path/to/wf_engine_params.json") Url.fallback)
            none TestFileType.WfEngineParams)
          TestFile.fallback,
        unwrapOr
          (TestFile.new
            (unwrapOr (Url.parse "https://example.com/path/to/data.fq") Url.fallback)
            none TestFileType.Other)
          TestFile.fallback ] }

/-- Modelled from the spec: the entries of `Config.authors` are read by
`src/trs.rs` through a `github_account` field (the committed `src/config.rs`
declares `authors: Vec<String>`, so the `Author` struct itself is missing
from the sources); the record carries the account identifier, the only field
either file reads. -/
structure Author where
  github_account : String
deriving DecidableEq, Repr

/-- Embeds `config::Language` (src/config.rs). -/
structure Language where
  type : Option LanguageType
  version : Option String
deriving DecidableEq, Repr

/-- Embeds `config::Workflow` (src/config.rs). -/
structure Workflow where
  name : String
  readme : Url
  language : Language
  files : List File
  testing : List Testing
deriving DecidableEq, Repr

/-- Embeds `config::Config` (src/config.rs); `id: Uuid` is its canonical string. -/
structure Config where
  id : String
  version : String
  license : String
  authors : List Author
  workflow : Workflow
deriving DecidableEq, Repr

/-- A UTC instant at the second granularity of the `%Y%m%d%H%M%S` format
used by `ServiceInfo::new`. -/
structure DateTime where
  year : Nat
  month : Nat
  day : Nat
  hour : Nat
  minute : Nat
  second : Nat
deriving DecidableEq, Repr

/-- Zero-pads the decimal form of `n` to `w` digits. -/
def padZeros (w n : Nat) : String :=
  let s := toString n
  String.mk (List.replicate (w - s.length) '0') ++ s

/-- Embeds `created_at.format("%Y%m%d%H%M%S").to_string()` (src/trs.rs line 76). -/
def DateTime.formatYmdHms (t : DateTime) : String :=
  padZeros 4 t.year ++ padZeros 2 t.month ++ padZeros 2 t.day ++
    padZeros 2 t.hour ++ padZeros 2 t.minute ++ padZeros 2 t.second

/-- Embeds `trs::ServiceType` (src/trs.rs). -/
structure ServiceType where
  group : String
  artifact : String
  version : String
deriving DecidableEq, Repr

/-- Embeds `impl Default for ServiceType` (src/trs.rs lines 40-48). -/
def ServiceType.default : ServiceType :=
  { group := "gh-trs", artifact := "gh-trs", version := "2.0.1" }

/-- Embeds `trs::Organization` (src/trs.rs). -/
structure Organization where
  name : String
  url : Url
deriving DecidableEq, Repr

/-- Embeds `trs::ServiceInfo` (src/trs.rs). -/
structure ServiceInfo where
  id : String
  name : String
  type : ServiceType
  description : Option String
  organization : Organization
  contact_url : Option Url
  documentation_url : Option Url
  created_at : Option DateTime
  updated_at : Option DateTime
  environment : Option String
  version : String
deriving DecidableEq, Repr

/-- Embeds `trs::ServiceInfo::new` (src/trs.rs lines 56-78); `now` is the explicit
`Utc::now()` instant.  `config.authors[0]` on an empty list is the Rust
out-of-bounds panic, modelled as `GhError.panicked`. -/
def ServiceInfo.new (config : Config) (owner name : String) (now : DateTime) :
    Except GhError ServiceInfo :=
  match config.authors with
  | [] => .error (GhError.panicked "index out of bounds: the len is 0 but the index is 0")
  | a0 :: _ =>
    match Url.parse ("https://github.com/" ++ a0.github_account) with
    | .error e => .error e
    | .ok orgUrl =>
      .ok { id := name ++ "." ++ owner ++ ".gh-trs",
            name := "gh-trs " ++ owner ++ "/" ++ name,
            type := ServiceType.default,
            description := some "The GA4GH TRS API generated by gh-trs",
            organization := { name := a0.github_account, url := orgUrl },
            contact_url := none,
            documentation_url := none,
            created_at := some now,
            updated_at := some now,
            environment := none,
            version := now.formatYmdHms }

/-- Embeds `trs::ServiceInfo::new_or_update` (src/trs.rs lines 80-99): always build
a fresh record; when a previous record exists, copy its `id`, `name`,
`type`, `description`, `organization`, `contact_url`, `documentation_url`,
`created_at` and `environment` over the fresh values, leaving `updated_at`
and `version` from the fresh construction. -/
def ServiceInfo.new_or_update (prev : Option ServiceInfo) (config : Config)
    (owner name : String) (now : DateTime) : Except GhError ServiceInfo :=
  match ServiceInfo.new config owner name now with
  | .error e => .error e
  | .ok si =>
    match prev with
    | none => .ok si
    | some p =>
      .ok { si with
            id := p.id,
            name := p.name,
            type := p.type,
            description := p.description,
            organization := p.organization,
            contact_url := p.contact_url,
            documentation_url := p.documentation_url,
            created_at := p.created_at,
            environment := p.environment }

/-- Embeds `trs::Checksum` (src/trs.rs). -/
structure Checksum where
  checksum : String
  type : String
deriving DecidableEq, Repr

/-- Embeds `trs::ImageType` (src/trs.rs). -/
inductive ImageType where
  | Docker
  | Singularity
  | Conda
deriving DecidableEq, Repr

/-- Embeds `trs::ImageData` (src/trs.rs). -/
structure ImageData where
  registry_host : Option String
  image_name : Option String
  size : Option String
  updated : Option String
  checksum : Option Checksum
  image_type : Option ImageType
deriving DecidableEq, Repr

/-- Embeds `trs::DescriptorType` (src/trs.rs lines 213-221): the four workflow
languages of the registry standard plus `Galaxy`. -/
inductive DescriptorType where
  | Cwl
  | Wdl
  | Nfl
  | Smk
  | Galaxy
deriving DecidableEq, Repr, Fintype

/-- Embeds `trs::DescriptorType::new` (src/trs.rs lines 299-308): maps each
`LanguageType` variant to the correspondingly named `DescriptorType`
variant. -/
def DescriptorType.new : LanguageType → DescriptorType
  | LanguageType.Cwl => DescriptorType.Cwl
  | LanguageType.Wdl => DescriptorType.Wdl
  | LanguageType.Nfl => DescriptorType.Nfl
  | LanguageType.Smk => DescriptorType.Smk

/-- Embeds `trs::ToolVersion` (src/trs.rs). -/
structure ToolVersion where
  author : Option (List String)
  name : Option String
  url : Url
  id : String
  is_production : Option Bool
  images : Option (List ImageData)
  descriptor_type : Option (List DescriptorType)
  containerfile : Option Bool
  meta_version : Option String
  verified : Option Bool
  verified_source : Option (List String)
  signed : Option Bool
  included_apps : Option (List String)
deriving DecidableEq, Repr

/-- The interpolated tool-version URL string of `ToolVersion::new`
(src/trs.rs lines 271-277). -/
def toolVersionUrlStr (config : Config) (owner name : String) : String :=
  "https://" ++ owner ++ ".github.io/" ++ name ++ "/tools/" ++ config.id ++
    "/versions/" ++ config.version

/-- Embeds `trs::ToolVersion::new` (src/trs.rs lines 260-297).  The struct literal
evaluates its fields in order, so the `?` on `Url::parse` fires before the
`ok_or(anyhow!("No language type"))?` on the language type. -/
def ToolVersion.new (config : Config) (owner name : String) :
    Except GhError ToolVersion :=
  match Url.parse (toolVersionUrlStr config owner name) with
  | .error e => .error e
  | .ok u =>
    match config.workflow.language.type with
    | none => .error GhError.noLanguageType
    | some lt =>
      .ok { author := some (config.authors.map Author.github_account),
            name := some config.workflow.name,
            url := u,
            id := config.id,
            is_production := none,
            images := none,
            descriptor_type := some [DescriptorType.new lt],
            containerfile := none,
            meta_version := none,
            verified := none,
            verified_source := none,
            signed := none,
            included_apps := none }



/-- Sample URL `https://example.com/path/to/file.txt` used by the witnesses. -/
def sampleUrl : Url :=
  { scheme := "https", host := "example.com", pathSegments := some ["path", "to", "file.txt"] }

/-- Sample cannot-be-a-base URL (no path segments) used by the witnesses. -/
def urlNoPath : Url := { scheme := "https", host := "example.com", pathSegments := none }

/-- Sample configuration used by the witnesses: one author, WDL language. -/
def sampleCfg : Config :=
  { id := "id0", version := "1.0.0", license := "Apache-2.0",
    authors := [{ github_account := "suecharo" }],
    workflow :=
      { name := "wf", readme := sampleUrl,
        language := { type := some LanguageType.Wdl, version := some "1.0" },
        files := [], testing := [] } }

/-- Sample configuration with no declared language type. -/
def cfgNoLang : Config :=
  { sampleCfg with
    workflow := { sampleCfg.workflow with language := { type := none, version := none } } }

/-- Sample configuration with an empty author list. -/
def emptyAuthorsCfg : Config := { sampleCfg with authors := [] }

/-- Sample instant 2024-01-01 00:00:00 UTC. -/
def dt0 : DateTime := ⟨2024, 1, 1, 0, 0, 0⟩

/-- Sample instant 2024-01-01 00:00:01 UTC, one second after `dt0`. -/
def dt1 : DateTime := ⟨2024, 1, 1, 0, 0, 1⟩

/-- Parsing `https://github.com/` followed by any string always succeeds:
the host is the fixed `github.com` and the rest lands in the path. -/
theorem parse_github_url (s : String) :
    Url.parse ("https://github.com/" ++ s) =
      .ok { scheme := "https", host := "github.com",
            pathSegments := some (splitSegs s.data) } := rfl

/-- C3: for every URL whose path ends in a segment `s`, `File::new` and
`TestFile::new` with no explicit target resolve the target to exactly `s`;
for every URL and every explicitly given target they resolve to exactly that
explicit value verbatim, regardless of the URL. -/
theorem C3_target_resolution :
    (∀ (url : Url) (segs : List String) (s : String) (ft : FileType) (tft : TestFileType),
        url.pathSegments = some segs → segs.getLast? = some s →
        File.new url none ft = .ok { url := url, target := s, type := ft } ∧
        TestFile.new url none tft = .ok { url := url, target := s, type := tft }) ∧
    (∀ (url : Url) (t : String) (ft : FileType) (tft : TestFileType),
        File.new url (some t) ft = .ok { url := url, target := t, type := ft } ∧
        TestFile.new url (some t) tft = .ok { url := url, target := t, type := tft }) := by
  constructor
  · intro url segs s ft tft h1 h2
    exact ⟨by simp [File.new, h1, h2], by simp [TestFile.new, h1, h2]⟩
  · intro url t ft tft
    exact ⟨by simp [File.new], by simp [TestFile.new]⟩

/-- Witness for C3 at the URL `https://example.com/path/to/file.txt`. -/
theorem C3_witness :
    File.new sampleUrl none FileType.Primary =
      .ok { url := sampleUrl, target := "file.txt", type := FileType.Primary } ∧
    TestFile.new sampleUrl (some "path/to/file.txt") TestFileType.WfParams =
      .ok { url := sampleUrl, target := "path/to/file.txt", type := TestFileType.WfParams } :=
  ⟨(C3_target_resolution.1 sampleUrl ["path", "to", "file.txt"] "file.txt"
      FileType.Primary TestFileType.WfParams rfl rfl).1,
   (C3_target_resolution.2 sampleUrl "path/to/file.txt"
      FileType.Primary TestFileType.WfParams).2⟩

/-- C4: with no explicit target, `File::new` and `TestFile::new` fail with the
`InvalidUrl` error exactly when the URL has no path segments or its
path-segment sequence is empty; otherwise they succeed. -/
theorem C4_invalid_url :
    (∀ (url : Url) (ft : FileType) (tft : TestFileType),
        url.pathSegments = none ∨ url.pathSegments = some [] →
        File.new url none ft = .error (GhError.invalidUrl url.render) ∧
        TestFile.new url none tft = .error (GhError.invalidUrl url.render)) ∧
    (∀ (url : Url) (segs : List String) (ft : FileType) (tft : TestFileType),
        url.pathSegments = some segs → segs ≠ [] →
        (∃ f, File.new url none ft = .ok f) ∧
        (∃ g, TestFile.new url none tft = .ok g)) := by
  constructor
  · rintro url ft tft (h | h) <;>
      exact ⟨by simp [File.new, h], by simp [TestFile.new, h]⟩
  · intro url segs ft tft h hne
    obtain ⟨s, hs⟩ : ∃ s, segs.getLast? = some s := by
      cases segs with
      | nil => exact absurd rfl hne
      | cons a l => exact ⟨_, List.getLast?_eq_getLast _ (by simp)⟩
    exact ⟨⟨{ url := url, target := s, type := ft }, by simp [File.new, h, hs]⟩,
           ⟨{ url := url, target := s, type := tft }, by simp [TestFile.new, h, hs]⟩⟩

/-- Witness for C4 at a cannot-be-a-base URL and at
`https://example.com/path/to/file.txt`. -/
theorem C4_witness :
    (File.new urlNoPath none FileType.Primary =
        .error (GhError.invalidUrl urlNoPath.render) ∧
     TestFile.new urlNoPath none TestFileType.Other =
        .error (GhError.invalidUrl urlNoPath.render)) ∧
    ((∃ f, File.new sampleUrl none FileType.Primary = .ok f) ∧
     (∃ g, TestFile.new sampleUrl none TestFileType.Other = .ok g)) :=
  ⟨C4_invalid_url.1 urlNoPath FileType.Primary TestFileType.Other (Or.inl rfl),
   C4_invalid_url.2 sampleUrl ["path", "to", "file.txt"] FileType.Primary
     TestFileType.Other rfl (by decide)⟩

/-- C9: `Testing::default()` has id `test_1` and exactly three `TestFile`
entries with roles `[WfParams, WfEngineParams, Other]` in that order, each
entry's target derived from the last path segment of its URL. -/
theorem C9_testing_default :
    Testing.default.id = "test_1" ∧
    Testing.default.files.length = 3 ∧
    Testing.default.files.map TestFile.type =
      [TestFileType.WfParams, TestFileType.WfEngineParams, TestFileType.Other] ∧
    Testing.default.files.map TestFile.target =
      ["wf_params.json", "wf_engine_params.json", "data.fq"] ∧
    Testing.default.files.map (fun f => f.url.pathSegments.bind List.getLast?) =
      Testing.default.files.map (fun f => some f.target) := by
  decide

/-- C8 counterexample: `DescriptorType::new` is not a bijection between the
`LanguageType` enumeration and the `DescriptorType` enumeration — the
`Galaxy` variant of `DescriptorType` is not the image of any `LanguageType`,
so the map is not surjective. -/
theorem C8_counterexample : Function.Bijective DescriptorType.new = False :=
  eq_false fun h => by
    obtain ⟨l, hl⟩ := h.2 DescriptorType.Galaxy
    cases l <;> simp [DescriptorType.new] at hl

/-- C8 (amended): `DescriptorType::new` maps each `LanguageType` variant to
the correspondingly named `DescriptorType` variant, the mapping is
injective, and it is onto every `DescriptorType` other than `Galaxy` — a
bijection onto the non-`Galaxy` variants, not onto the whole enumeration. -/
theorem C8_descriptor_mapping :
    (DescriptorType.new LanguageType.Cwl = DescriptorType.Cwl ∧
     DescriptorType.new LanguageType.Wdl = DescriptorType.Wdl ∧
     DescriptorType.new LanguageType.Nfl = DescriptorType.Nfl ∧
     DescriptorType.new LanguageType.Smk = DescriptorType.Smk) ∧
    (∀ a b : LanguageType, DescriptorType.new a = DescriptorType.new b → a = b) ∧
    (∀ d : DescriptorType, d ≠ DescriptorType.Galaxy →
      ∃ l, DescriptorType.new l = d) := by
  refine ⟨⟨rfl, rfl, rfl, rfl⟩, by decide, by decide⟩

/-- Witness for C8 at `Wdl` (injectivity) and `Cwl` (preimage existence). -/
theorem C8_witness :
    LanguageType.Wdl = LanguageType.Wdl ∧
    (∃ l, DescriptorType.new l = DescriptorType.Cwl) :=
  ⟨C8_descriptor_mapping.2.1 LanguageType.Wdl LanguageType.Wdl rfl,
   C8_descriptor_mapping.2.2 DescriptorType.Cwl (by decide)⟩

/-- Parsed form of the templated tool-version URL for `sampleCfg` with owner
`suecharo` and repository `repo`. -/
def u0 : Url :=
  { scheme := "https", host := "suecharo.github.io",
    pathSegments := some ["repo", "tools", "id0", "versions", "1.0.0"] }

/-- C5: for every config with a present language type whose templated
tool-version URL parses, `ToolVersion::new` returns the record with the
author account list in config order, the workflow name, exactly the
templated URL, `id = config.id`, the single-element mapped descriptor-type
list, and every other optional field absent. -/
theorem C5_tool_version_fields (cfg : Config) (owner repo : String)
    (lt : LanguageType) (u : Url)
    (hlt : cfg.workflow.language.type = some lt)
    (hu : Url.parse (toolVersionUrlStr cfg owner repo) = .ok u) :
    ToolVersion.new cfg owner repo = .ok
      { author := some (cfg.authors.map Author.github_account),
        name := some cfg.workflow.name,
        url := u,
        id := cfg.id,
        is_production := none,
        images := none,
        descriptor_type := some [DescriptorType.new lt],
        containerfile := none,
        meta_version := none,
        verified := none,
        verified_source := none,
        signed := none,
        included_apps := none } := by
  simp [ToolVersion.new, hu, hlt]

/-- Witness for C5 at `sampleCfg`, owner `suecharo`, repository `repo`. -/
theorem C5_witness :
    ToolVersion.new sampleCfg "suecharo" "repo" = .ok
      { author := some ["suecharo"],
        name := some "wf",
        url := u0,
        id := "id0",
        is_production := none,
        images := none,
        descriptor_type := some [DescriptorType.Wdl],
        containerfile := none,
        meta_version := none,
        verified := none,
        verified_source := none,
        signed := none,
        included_apps := none } := by
  have h := C5_tool_version_fields sampleCfg "suecharo" "repo" LanguageType.Wdl u0
    rfl (by decide)
  simpa using h

/-- C6 counterexample: with owner `foo bar` (space: a forbidden host code
point) the `?` on `Url::parse` fires before the language-type check, so a
config with an absent language type fails with the propagated URL-parse
error, not with `No language type`. -/
theorem C6_counterexample :
    ToolVersion.new cfgNoLang "foo bar" "repo" =
      .error (GhError.urlParse "https://foo bar.github.io/repo/tools/id0/versions/1.0.0") ∧
    (ToolVersion.new cfgNoLang "foo bar" "repo" =
      .error GhError.noLanguageType) = False := by
  exact ⟨by decide, eq_false (by decide)⟩

/-- C6 (amended): provided the templated tool-version URL parses, a config
with an absent language type makes `ToolVersion::new` fail with the
`No language type` error, and a config with language type `Wdl` succeeds
with descriptor type `[WDL]`. -/
theorem C6_missing_language_type (cfg : Config) (owner repo : String) (u : Url)
    (hu : Url.parse (toolVersionUrlStr cfg owner repo) = .ok u) :
    (cfg.workflow.language.type = none →
      ToolVersion.new cfg owner repo = .error GhError.noLanguageType) ∧
    (cfg.workflow.language.type = some LanguageType.Wdl →
      ∃ tv, ToolVersion.new cfg owner repo = .ok tv ∧
        tv.descriptor_type = some [DescriptorType.Wdl]) := by
  constructor
  · intro h
    simp [ToolVersion.new, hu, h]
  · intro h
    exact ⟨{ author := some (cfg.authors.map Author.github_account),
             name := some cfg.workflow.name,
             url := u,
             id := cfg.id,
             is_production := none,
             images := none,
             descriptor_type := some [DescriptorType.Wdl],
             containerfile := none,
             meta_version := none,
             verified := none,
             verified_source := none,
             signed := none,
             included_apps := none },
           by simp [ToolVersion.new, hu, h, DescriptorType.new], rfl⟩

/-- Witness for C6 at `cfgNoLang` and `sampleCfg` with owner `suecharo`. -/
theorem C6_witness :
    ToolVersion.new cfgNoLang "suecharo" "repo" = .error GhError.noLanguageType ∧
    (∃ tv, ToolVersion.new sampleCfg "suecharo" "repo" = .ok tv ∧
      tv.descriptor_type = some [DescriptorType.Wdl]) :=
  ⟨(C6_missing_language_type cfgNoLang "suecharo" "repo" u0 (by decide)).1 rfl,
   (C6_missing_language_type sampleCfg "suecharo" "repo" u0 (by decide)).2 rfl⟩

/-- C7: for every config with non-empty authors, the freshly constructed
service record has `id = "{repo}.{owner}.gh-trs"`,
`name = "gh-trs {owner}/{repo}"`, the fixed `gh-trs`/`gh-trs`/`2.0.1`
service-type triple, the fixed static description, the organization derived
from the first author's account with URL `https://github.com/{account}`,
absent contact/documentation URLs and environment, `created_at = updated_at`
equal to the current instant, and `version` equal to that instant formatted
`%Y%m%d%H%M%S`. -/
theorem C7_fresh_service_record (cfg : Config) (owner repo : String)
    (now : DateTime) (a0 : Author) (tl : List Author)
    (ha : cfg.authors = a0 :: tl) :
    ∃ ou, Url.parse ("https://github.com/" ++ a0.github_account) = .ok ou ∧
      ServiceInfo.new cfg owner repo now = .ok
        { id := repo ++ "." ++ owner ++ ".gh-trs",
          name := "gh-trs " ++ owner ++ "/" ++ repo,
          type := { group := "gh-trs", artifact := "gh-trs", version := "2.0.1" },
          description := some "The GA4GH TRS API generated by gh-trs",
          organization := { name := a0.github_account, url := ou },
          contact_url := none,
          documentation_url := none,
          created_at := some now,
          updated_at := some now,
          environment := none,
          version := now.formatYmdHms } := by
  refine ⟨_, parse_github_url a0.github_account, ?_⟩
  simp [ServiceInfo.new, ha, parse_github_url, ServiceType.default]

/-- Witness for C7 at `sampleCfg`, owner `o`, repository `r`, instant `dt0`. -/
theorem C7_witness :
    ∃ ou, Url.parse ("https://github.com/" ++ "suecharo") = .ok ou ∧
      ServiceInfo.new sampleCfg "o" "r" dt0 = .ok
        { id := "r.o.gh-trs",
          name := "gh-trs o/r",
          type := { group := "gh-trs", artifact := "gh-trs", version := "2.0.1" },
          description := some "The GA4GH TRS API generated by gh-trs",
          organization := { name := "suecharo", url := ou },
          contact_url := none,
          documentation_url := none,
          created_at := some dt0,
          updated_at := some dt0,
          environment := none,
          version := dt0.formatYmdHms } := by
  have h := C7_fresh_service_record sampleCfg "o" "r" dt0
    { github_account := "suecharo" } [] rfl
  simpa using h

/-- Parsed form of the organization URL `https://github.com/suecharo`. -/
def orgUrl0 : Url :=
  { scheme := "https", host := "github.com", pathSegments := some ["suecharo"] }

/-- Service record generated fresh from `sampleCfg` with owner `o`,
repository `r`, at instant `dt0`. -/
def siR1 : ServiceInfo :=
  { id := "r.o.gh-trs",
    name := "gh-trs o/r",
    type := { group := "gh-trs", artifact := "gh-trs", version := "2.0.1" },
    description := some "The GA4GH TRS API generated by gh-trs",
    organization := { name := "suecharo", url := orgUrl0 },
    contact_url := none,
    documentation_url := none,
    created_at := some dt0,
    updated_at := some dt0,
    environment := none,
    version := "20240101000000" }

/-- The record of a regeneration of `siR1` one second later, at `dt1`. -/
def siR2 : ServiceInfo :=
  { siR1 with updated_at := some dt1, version := "20240101000001" }

/-- C1 counterexample: when the second generation call falls in the same
clock second as the first (here both at `dt0`), the regenerated record is
identical to the prior one — in particular `R2.version = R1.version`,
refuting the unconditional `R2.version != R1.version`. -/
theorem C1_counterexample :
    ServiceInfo.new_or_update none sampleCfg "o" "r" dt0 = .ok siR1 ∧
    ServiceInfo.new_or_update (some siR1) sampleCfg "o" "r" dt0 = .ok siR1 := by
  exact ⟨by decide, by decide⟩

/-- C1 (amended): if `R1 = generate(None, cfg, owner, repo)` at instant `t1`
and `R2 = generate(Some R1, cfg, owner, repo)` at instant `t2`, then `R2`
equals `R1` on `id`, `name`, `type`, `description`, `organization`,
`contact_url`, `documentation_url`, `created_at` and `environment`, while
`R2.updated_at` and `R2.version` reflect `t2`; `R2.version != R1.version`
provided the two instants format differently under `%Y%m%d%H%M%S` (i.e. the
calls fall in different clock seconds). -/
theorem C1_regeneration (cfg : Config) (o r : String) (t1 t2 : DateTime)
    (R1 R2 : ServiceInfo)
    (h1 : ServiceInfo.new_or_update none cfg o r t1 = .ok R1)
    (h2 : ServiceInfo.new_or_update (some R1) cfg o r t2 = .ok R2)
    (hne : t1.formatYmdHms ≠ t2.formatYmdHms) :
    R2.id = R1.id ∧ R2.name = R1.name ∧ R2.type = R1.type ∧
    R2.description = R1.description ∧ R2.organization = R1.organization ∧
    R2.contact_url = R1.contact_url ∧
    R2.documentation_url = R1.documentation_url ∧
    R2.created_at = R1.created_at ∧ R2.environment = R1.environment ∧
    R2.updated_at = some t2 ∧ R2.version = t2.formatYmdHms ∧
    R2.version ≠ R1.version := by
  cases hA : cfg.authors with
  | nil =>
    simp only [ServiceInfo.new_or_update, ServiceInfo.new, hA] at h1
    cases h1
  | cons a0 tl =>
    simp only [ServiceInfo.new_or_update, ServiceInfo.new, hA, parse_github_url,
      Except.ok.injEq] at h1 h2
    subst h1
    subst h2
    exact ⟨rfl, rfl, rfl, rfl, rfl, rfl, rfl, rfl, rfl, rfl, rfl, hne.symm⟩

/-- Witness for C1 at `sampleCfg`, owner `o`, repository `r`, instants `dt0`
and `dt1` one second apart. -/
theorem C1_witness :
    siR2.id = siR1.id ∧ siR2.name = siR1.name ∧ siR2.type = siR1.type ∧
    siR2.description = siR1.description ∧
    siR2.organization = siR1.organization ∧
    siR2.contact_url = siR1.contact_url ∧
    siR2.documentation_url = siR1.documentation_url ∧
    siR2.created_at = siR1.created_at ∧ siR2.environment = siR1.environment ∧
    siR2.updated_at = some dt1 ∧ siR2.version = dt1.formatYmdHms ∧
    siR2.version ≠ siR1.version :=
  C1_regeneration sampleCfg "o" "r" dt0 dt1 siR1 siR2
    (by decide) (by decide) (by decide)

/-- C2: with an empty author list, `ServiceInfo::new` (and hence
`new_or_update`) evaluates `config.authors[0]` and aborts with the Rust
out-of-bounds panic — it does not surface a `MissingAuthor` error (no such
error exists anywhere in the code) — while `ToolVersion::new` silently
produces an empty author list. -/
theorem C2_empty_authors :
    ServiceInfo.new emptyAuthorsCfg "o" "r" dt0 =
      .error (GhError.panicked "index out of bounds: the len is 0 but the index is 0") ∧
    ServiceInfo.new_or_update none emptyAuthorsCfg "o" "r" dt0 =
      .error (GhError.panicked "index out of bounds: the len is 0 but the index is 0") ∧
    Except.map (fun tv => tv.author) (ToolVersion.new emptyAuthorsCfg "o" "r") =
      .ok (some []) := by
  exact ⟨by decide, by decide, by decide⟩

/-- C10: building a tool version can fail with a propagated URL-parse error
outside the spec's three error classes: owner `foo bar` (space: a forbidden
host code point) makes the interpolated
`https://{owner}.github.io/{repo}/tools/{id}/versions/{version}` URL fail to
parse, and `ToolVersion::new` returns exactly that error. -/
theorem C10_url_parse_error :
    ToolVersion.new sampleCfg "foo bar" "repo" =
      .error (GhError.urlParse "https://foo bar.github.io/repo/tools/id0/versions/1.0.0") := by
  decide
end GhTrs
